import Mathlib

/-!
Shallow embedding of the enemy path/state machine and game-scene update loop
of the Galaga-style game in `src/videogame/scene.py`.

Modelling conventions:
* Python floats are modelled as real numbers (`ℝ`); Python's `int()`
  truncation toward zero is `pyInt`.
* Pygame rect coordinates are C ints, and assigning a float to a rect
  attribute truncates it toward zero.  Coordinates the code only ever
  reads and writes through integer arithmetic (ships, bullets, waypoints)
  are `ℤ`.  For the enemy sprite center, which the code moves by
  fractional increments (`rect.centerx += dx / distance * speed`), two
  models are given: `enemyUpdateInt` over `AgentI` is the faithful one —
  the position is an integer pair and every write goes through `pyInt`
  truncation — and `enemyUpdate` over `Agent` is the real-valued
  abstraction (the spec's "2D floating-point Position"), used only where
  the representation is immaterial (dive-path bookkeeping, branch guards,
  and the game-scene state whose claims never depend on fractional enemy
  movement).
* External collaborators (the collision query, the random number source)
  are passed into the per-tick function as an explicit input record
  (`TickIn`), mirroring spec section 6 which treats them as black boxes.
* Sprite-group membership of the player ship is modelled by boolean flags;
  the extra-life icons (`lives_group`) are modelled by their count, since
  no claim inspects an icon's position.  The player and the lead intro
  ship are modelled as separate records (object aliasing during the intro
  cinematic is not modelled; every state considered by the claims is past
  the intro, where the code has already replaced the player object).
-/

namespace Galaga

open Classical

/-- Python `int()` applied to a float: truncation toward zero. -/
noncomputable def pyInt (x : ℝ) : ℤ :=
  if 0 ≤ x then ⌊x⌋ else ⌈x⌉

/-- The three values the code stores in `EnemyPath.state`
(`"entering"`, `"formation"`, `"diving"`). -/
inductive EState where
  | entering
  | formation
  | diving
deriving DecidableEq, Repr

/-- One enemy sprite (`class EnemyPath`), i.e. the spec's EnemyAgent:
position, entrance path with its index, the fixed formation slot, the
state tag, the dive path with its index, and the per-agent speed. -/
structure Agent where
  pos : ℝ × ℝ
  path : List (ℤ × ℤ)
  current_point : ℕ
  formation_pos : ℤ × ℤ
  state : EState
  dive_path : List (ℤ × ℤ)
  dive_point : ℕ
  speed : ℝ

/-- `(dx**2 + dy**2) ** 0.5`: the Euclidean distance the update uses. -/
noncomputable def dist (p t : ℝ × ℝ) : ℝ :=
  Real.sqrt ((t.1 - p.1) ^ 2 + (t.2 - p.2) ^ 2)

/-- `rect.centerx += dx / distance * speed` (and likewise for y):
move `s` units along the normalized direction from `p` to `t`. -/
noncomputable def stepToward (p t : ℝ × ℝ) (s : ℝ) : ℝ × ℝ :=
  (p.1 + (t.1 - p.1) / dist p t * s, p.2 + (t.2 - p.2) / dist p t * s)

/-- The real pair of an integer waypoint. -/
def ptR (q : ℤ × ℤ) : ℝ × ℝ := ((q.1 : ℝ), (q.2 : ℝ))

/-- The waypoint currently targeted while entering. -/
def wp (a : Agent) : ℤ × ℤ := a.path.getD a.current_point (0, 0)

/-- The waypoint currently targeted while diving. -/
def dwp (a : Agent) : ℤ × ℤ := a.dive_path.getD a.dive_point (0, 0)

/-- `EnemyPath.update` (scene.py lines 733-768) over real-valued
positions: waypoint following in the `entering` and `diving` states,
position pinning in `formation`.  This is the abstraction that ignores
the rect's integer storage; `enemyUpdateInt` below is the faithful
integer-truncating version, and claims whose truth depends on the
position representation are settled against that one. -/
noncomputable def enemyUpdate (a : Agent) : Agent :=
  match a.state with
  | .entering =>
    if a.current_point < a.path.length - 1 then
      let t := ptR (wp a)
      if dist a.pos t < a.speed then
        { a with pos := t, current_point := a.current_point + 1 }
      else
        { a with pos := stepToward a.pos t a.speed }
    else
      { a with state := .formation, pos := ptR a.formation_pos }
  | .formation => { a with pos := ptR a.formation_pos }
  | .diving =>
    if a.dive_point < a.dive_path.length then
      let t := ptR (dwp a)
      if dist a.pos t < a.speed then
        { a with pos := t, dive_point := a.dive_point + 1 }
      else
        { a with pos := stepToward a.pos t a.speed }
    else
      { a with state := .formation, pos := ptR a.formation_pos }

/-- An EnemyAgent with its sprite center kept as the pygame Rect keeps
it: a pair of integers. -/
structure AgentI where
  pos : ℤ × ℤ
  path : List (ℤ × ℤ)
  current_point : ℕ
  formation_pos : ℤ × ℤ
  state : EState
  dive_path : List (ℤ × ℤ)
  dive_point : ℕ
  speed : ℝ

/-- The waypoint currently targeted while entering. -/
def wpI (a : AgentI) : ℤ × ℤ := a.path.getD a.current_point (0, 0)

/-- The waypoint currently targeted while diving. -/
def dwpI (a : AgentI) : ℤ × ℤ := a.dive_path.getD a.dive_point (0, 0)

/-- `rect.centerx += dx / distance * speed` with pygame's actual rect
semantics: the right-hand side is computed in float arithmetic, but
storing it back into the int-backed rect attribute truncates it toward
zero (`pyInt`). -/
noncomputable def moveTowardInt (p t : ℤ × ℤ) (s : ℝ) : ℤ × ℤ :=
  (pyInt ((p.1 : ℝ) + ((t.1 : ℝ) - (p.1 : ℝ)) / dist (ptR p) (ptR t) * s),
   pyInt ((p.2 : ℝ) + ((t.2 : ℝ) - (p.2 : ℝ)) / dist (ptR p) (ptR t) * s))

/-- `EnemyPath.update` (scene.py lines 733-768), faithful to the source's
integer rect storage: distances are computed in float arithmetic from the
integer center, snaps assign the integer waypoint exactly, and fractional
moves truncate on assignment. -/
noncomputable def enemyUpdateInt (a : AgentI) : AgentI :=
  match a.state with
  | .entering =>
    if a.current_point < a.path.length - 1 then
      if dist (ptR a.pos) (ptR (wpI a)) < a.speed then
        { a with pos := wpI a, current_point := a.current_point + 1 }
      else
        { a with pos := moveTowardInt a.pos (wpI a) a.speed }
    else
      { a with state := .formation, pos := a.formation_pos }
  | .formation => { a with pos := a.formation_pos }
  | .diving =>
    if a.dive_point < a.dive_path.length then
      if dist (ptR a.pos) (ptR (dwpI a)) < a.speed then
        { a with pos := dwpI a, dive_point := a.dive_point + 1 }
      else
        { a with pos := moveTowardInt a.pos (dwpI a) a.speed }
    else
      { a with state := .formation, pos := a.formation_pos }

/-- The spiral portion of `EnemyPath.create_arc_path` (lines 703-722):
`int(1.5 * 40) = 60` points spiralling inward from radius 180 while
descending 350 pixels, each coordinate truncated by `int()`. -/
noncomputable def spiralPart (start_x start_y : ℝ) (flip : Bool) : List (ℤ × ℤ) :=
  (List.range 60).map (fun (i : ℕ) =>
    let angle0 : ℝ := ((i : ℝ) / 40) * (2 * Real.pi)
    let angle : ℝ := if flip then -angle0 else angle0
    let radius : ℝ := 180 * (1 - (i : ℝ) / 60)
    let x : ℝ := start_x + radius * Real.cos angle
    let y : ℝ := (start_y + 100) + radius * Real.sin angle + 350 * (i : ℝ) / 60
    (pyInt x, pyInt y))

/-- `final_x, final_y = path[-1]` after the spiral loop: the spiral's
last point. -/
noncomputable def spiralEnd (start_x start_y : ℝ) (flip : Bool) : ℤ × ℤ :=
  (spiralPart start_x start_y flip).getLast?.getD (0, 0)

/-- `EnemyPath.create_arc_path` (lines 703-731): the spiral followed by 40
straight-line interpolation steps (`i = 0 .. 39`) from the spiral's last
point toward the formation slot. -/
noncomputable def create_arc_path (start_x start_y : ℝ) (flip : Bool)
    (formation_pos : ℤ × ℤ) : List (ℤ × ℤ) :=
  let fin := spiralEnd start_x start_y flip
  let dx : ℝ := ((formation_pos.1 : ℝ) - (fin.1 : ℝ)) / 40
  let dy : ℝ := ((formation_pos.2 : ℝ) - (fin.2 : ℝ)) / 40
  spiralPart start_x start_y flip ++ (List.range 40).map (fun (i : ℕ) =>
    (pyInt ((fin.1 : ℝ) + dx * (i : ℝ)), pyInt ((fin.2 : ℝ) + dy * (i : ℝ))))

/-- `GameScene.create_dive_path` (lines 440-449): midpoint curved down by
200, the player snapshot, the midpoint again, the formation slot.
Python `//` is floor division, hence `Int.fdiv`. -/
def create_dive_path (start target endp : ℤ × ℤ) : List (ℤ × ℤ) :=
  let mid_x := (start.1 + target.1).fdiv 2
  let mid_y := (start.2 + target.2).fdiv 2 + 200
  [(mid_x, mid_y), target, (mid_x, mid_y), endp]

/-- `EnemyPath.__init__` (lines 680-701): a fresh agent entering along its
arc path, positioned on the path's first point, with speed
`4 * speed_multiplier`. -/
noncomputable def EnemyPathInit (start_x start_y : ℝ) (flip : Bool)
    (formation_pos : ℤ × ℤ) (speed_multiplier : ℝ) : Agent :=
  let path := create_arc_path start_x start_y flip formation_pos
  { pos := ptR (path.headI)
    path := path
    current_point := 0
    formation_pos := formation_pos
    state := .entering
    dive_path := []
    dive_point := 0
    speed := 4 * speed_multiplier }

/-- The inner `for col in range(cols)` loop of `EnemySpawner.spawn_wave`
with its `break` once `count >= wave_size`. -/
def innerCells (wave_size : ℕ) (count : ℕ) (row : ℕ) : List ℕ → List (ℕ × ℕ)
  | [] => []
  | c :: rest =>
    if wave_size ≤ count then []
    else (row, c) :: innerCells wave_size (count + 1) row rest

/-- The outer `for row in range(rows)` loop, threading the running count. -/
def outerCells (wave_size cols : ℕ) (count : ℕ) : List ℕ → List (ℕ × ℕ)
  | [] => []
  | r :: rest =>
    let placed := innerCells wave_size count r (List.range cols)
    placed ++ outerCells wave_size cols (count + placed.length) rest

/-- `EnemySpawner.spawn_wave` (lines 639-669): 4 rows, at most 5 columns,
`cols = min(5, ceil(wave_size / 4))`, formation centered via
`start_x = (1100 - (cols - 1) * 150) // 2`, grid spacing 150 x 90 starting
at y = 100, one entering agent per placed cell. -/
noncomputable def spawn_wave (wave_size : ℕ) (speed_multiplier : ℝ) : List Agent :=
  let cols := min 5 ((wave_size + 4 - 1) / 4)
  let start_x : ℤ := (1100 - ((cols : ℤ) - 1) * 150).fdiv 2
  (outerCells wave_size cols 0 (List.range 4)).map (fun rc =>
    let fx : ℤ := start_x + (rc.2 : ℤ) * 150
    let fy : ℤ := 100 + (rc.1 : ℤ) * 90
    EnemyPathInit (fx : ℝ) (-70) false (fx, fy) speed_multiplier)

/-- `class Bullet`: position and fixed velocity `(0, -8)`. -/
structure BulletS where
  x : ℤ
  y : ℤ
  vel_x : ℤ
  vel_y : ℤ
deriving DecidableEq, Repr

/-- `Bullet.update`: move by the velocity. -/
def bulletUpdate (b : BulletS) : BulletS :=
  { b with x := b.x + b.vel_x, y := b.y + b.vel_y }

/-- `class Ship`: 70x70 sprite, top-left coordinates, velocity, speed 5,
and its owned projectile collection. -/
structure ShipS where
  x : ℤ
  y : ℤ
  vel_x : ℤ
  vel_y : ℤ
  speed : ℤ
  bullets : List BulletS
deriving DecidableEq, Repr

/-- `Ship.__init__`: x = 1100 // 2, y = 1300 - 70, zero velocity, no
bullets. -/
def shipInit : ShipS :=
  { x := 550, y := 1230, vel_x := 0, vel_y := 0, speed := 5, bullets := [] }

/-- `Ship.update` (lines 513-524): advance bullets, drop bullets that left
the top (`rect.y <= 0`), move horizontally with clamping to
`[0, 1100 - width]`, then move vertically. -/
def shipUpdate (s : ShipS) : ShipS :=
  let bs := (s.bullets.map bulletUpdate).filter (fun b => ¬ b.y ≤ 0)
  let x1 := s.x + s.vel_x
  let x2 := if x1 < 0 then 0 else if 1100 - 70 ≤ x1 then 1100 - 70 else x1
  { s with bullets := bs, x := x2, y := s.y + s.vel_y }

/-- `Ship.shoot` (lines 526-533): only when the ship owns zero bullets,
add one at `(x + width // 2 - 3, y)`. -/
def shoot (s : ShipS) : ShipS :=
  if s.bullets.length = 0 then
    { s with bullets := s.bullets ++ [{ x := s.x + 35 - 3, y := s.y, vel_x := 0, vel_y := -8 }] }
  else s

/-- The score / lives / extra-life-threshold triple the collision-scoring
loop mutates. -/
structure ScoreSt where
  score : ℕ
  lives : ℤ
  extra_life : ℕ
deriving DecidableEq, Repr

/-- One iteration of the `for enemy in hits:` loop (lines 351-359):
formation kills award 50, diving kills 150, then the extra-life threshold
check. -/
def scoreStep (st : ScoreSt) (e : Agent) : ScoreSt :=
  let sc :=
    match e.state with
    | .formation => st.score + 50
    | .diving => st.score + 150
    | .entering => st.score
  if st.extra_life ≤ sc then
    { score := sc, lives := st.lives + 1, extra_life := st.extra_life + 10000 }
  else
    { st with score := sc }

/-- The whole scoring loop over the enemies returned by `groupcollide`. -/
def scoreHits (es : List Agent) (st : ScoreSt) : ScoreSt :=
  es.foldl scoreStep st

/-- `groupcollide(..., True, True)` removal: drop the elements at the
given indices (indices counted from `k`). -/
def removeIdxAux (k : ℕ) (idx : List ℕ) : List α → List α
  | [] => []
  | x :: xs =>
    if k ∈ idx then removeIdxAux (k + 1) idx xs
    else x :: removeIdxAux (k + 1) idx xs

/-- Drop the elements at the given indices. -/
def removeIdx (xs : List α) (idx : List ℕ) : List α :=
  removeIdxAux 0 idx xs

/-- `GameScene` mutable state (the fields `GameScene.update_scene` reads
and writes). -/
structure GState where
  lives : ℤ
  num_lives_icons : ℕ
  respawn_timer : ℤ
  is_respawning : Bool
  intro_timer : ℕ
  start_descent : Bool
  intro_moving : Bool
  player_control_enable : Bool
  wave_size : ℕ
  enemies : List Agent
  score : ℕ
  level : ℕ
  speed_multiplier : ℝ
  extra_life : ℕ
  game_over : Bool
  intro_done : Bool
  intro_left_ship : ShipS
  player : ShipS
  player_in_sprite_group : Bool
  player_in_intro_ships : Bool
  player_in_lives_group : Bool

/-- Per-tick values produced by the external collaborators (spec section
6): the collision query results and the random number source. -/
structure TickIn where
  hits : List ℕ
  bullets_hit : List ℕ
  dive_roll : ℝ
  dive_pick : ℕ
  player_hit : Bool

/-- `GameScene.player_death` (lines 265-291): lose a life, bump the level,
drop an extra-life icon, pull the dead ship out of the groups, then start
the respawn countdown or flag game over. -/
def player_death (g : GState) : GState :=
  let lives := g.lives - 1
  let level := g.level + 1
  let icons0 := if 0 < g.num_lives_icons then g.num_lives_icons - 1 else g.num_lives_icons
  let icons1 := if g.player_in_lives_group then icons0 - 1 else icons0
  let g1 := { g with
    lives := lives, level := level, num_lives_icons := icons1,
    player_in_sprite_group := false, player_in_intro_ships := false,
    player_in_lives_group := false }
  if 0 < lives then { g1 with is_respawning := true, respawn_timer := 180 }
  else { g1 with game_over := true }

/-- Lines 295-302: when not respawning, update the enemy group twice (once
directly, once through `EnemySpawner.update`), the player ship through
whichever groups contain it, and the player's bullets once more. -/
noncomputable def phaseUpdates (g : GState) : GState :=
  if g.is_respawning then g
  else
    let enemies := (g.enemies.map enemyUpdate).map enemyUpdate
    let p0 := if g.player_in_sprite_group then shipUpdate g.player else g.player
    let p1 := if g.player_in_lives_group then shipUpdate p0 else p0
    let p2 := if g.player_in_intro_ships then shipUpdate p1 else p1
    let p3 := { p2 with bullets := p2.bullets.map bulletUpdate }
    { g with enemies := enemies, player := p3,
             intro_left_ship := shipUpdate g.intro_left_ship }

/-- Lines 304-345: the intro sequencing: timers, the descent trigger, the
lead ship's move toward `intro_tar_pos = (550, 1200)`, and the hand-over
of control. -/
noncomputable def phaseIntro (g : GState) : GState :=
  let t0 := if ¬ g.intro_done then g.intro_timer + 1 else g.intro_timer
  let descend := 180 ≤ t0 ∧ ¬ g.start_descent
  let sd := if descend then true else g.start_descent
  let pl := if descend then { g.player with vel_y := 2 } else g.player
  let t1 := t0 + 1
  let moving0 := if t1 = 180 then true else g.intro_moving
  let ils0 :=
    if ¬ g.intro_done ∧ moving0 then
      { g.intro_left_ship with y := g.intro_left_ship.y + g.intro_left_ship.vel_y }
    else g.intro_left_ship
  let reached := 1200 ≤ ils0.y
  let ils1 := if reached then { ils0 with y := 1200, vel_y := 0 } else ils0
  let done1 := if reached then true else g.intro_done
  let ctrl1 := if reached then true else g.player_control_enable
  let g1 := { g with intro_timer := t1, start_descent := sd, player := pl,
                     intro_moving := moving0, intro_left_ship := ils1,
                     intro_done := done1, player_control_enable := ctrl1 }
  if g1.intro_moving then
    let dx : ℝ := ((550 : ℤ) - (g1.intro_left_ship.x + 35) : ℤ)
    let dy : ℝ := ((1200 : ℤ) - (g1.intro_left_ship.y + 35) : ℤ)
    let d := Real.sqrt (dx ^ 2 + dy ^ 2)
    if 4 < d then
      { g1 with intro_left_ship :=
          { g1.intro_left_ship with
              x := g1.intro_left_ship.x + pyInt (dx / d * 4),
              y := g1.intro_left_ship.y + pyInt (dy / d * 4) } }
    else
      let ship := { g1.intro_left_ship with x := 550 - 35, y := 1200 - 35, vel_y := 0 }
      { g1 with intro_moving := false, intro_done := true,
                intro_left_ship := ship, player := ship,
                player_in_sprite_group := true, player_in_intro_ships := false,
                player_control_enable := true }
  else g1

/-- Lines 347-359: `groupcollide` kills the hit enemies and the consumed
bullets, then the scoring loop runs over the hit enemies. -/
def phaseScoring (inp : TickIn) (g : GState) : GState :=
  let hitAgents := inp.hits.filterMap (fun i => g.enemies[i]?)
  let enemies := removeIdx g.enemies inp.hits
  let bullets := removeIdx g.player.bullets inp.bullets_hit
  let st := scoreHits hitAgents ⟨g.score, g.lives, g.extra_life⟩
  { g with enemies := enemies,
           player := { g.player with bullets := bullets },
           score := st.score, lives := st.lives, extra_life := st.extra_life }

/-- Lines 361-376: with probability `0.01 + 0.002 * (level - 1)` pick a
random formation enemy, set it diving, and give it a fresh dive path from
its current position toward the player's current position. -/
noncomputable def phaseDive (inp : TickIn) (g : GState) : GState :=
  let chance : ℝ := 0.01 + 0.002 * ((g.level : ℝ) - 1)
  if g.intro_done = true ∧ inp.dive_roll < chance then
    let fidx := ((List.range g.enemies.length).filter
      (fun i => (g.enemies[i]?.map Agent.state) = some .formation))
    if fidx.isEmpty then g
    else
      let j := fidx.getD (inp.dive_pick % fidx.length) 0
      { g with enemies := g.enemies.mapIdx (fun i e =>
          if i = j then
            { e with state := .diving,
                     dive_path := create_dive_path
                       (pyInt e.pos.1, pyInt e.pos.2)
                       (g.player.x + 35, g.player.y + 35)
                       e.formation_pos,
                     dive_point := 0 }
          else e) }
  else g

/-- Lines 378-394: on a player-enemy overlap kill the player, empty the
enemy group, escalate the wave size, immediately spawn the next wave with
the current speed multiplier, and (re)start the 180-tick countdown. -/
noncomputable def phaseCollision (inp : TickIn) (g : GState) : GState :=
  if g.intro_done = true ∧ inp.player_hit = true then
    let g1 := player_death g
    let ws := min (g1.wave_size + 15) 80
    { g1 with wave_size := ws,
              enemies := spawn_wave ws g1.speed_multiplier,
              is_respawning := true, respawn_timer := 180 }
  else g

/-- Lines 396-414: the first respawn block: count down, spawn a wave with
the default multiplier when the timer runs out, and every counting tick
replace the player with a fresh ship at (centerx 550, y 1200) with no
bullets. -/
noncomputable def phaseRespawnA (g : GState) : GState :=
  if g.is_respawning then
    let t := g.respawn_timer - 1
    let g1 :=
      if t ≤ 0 then
        { g with respawn_timer := t, is_respawning := false,
                 enemies := g.enemies ++ spawn_wave g.wave_size 1 }
      else { g with respawn_timer := t }
    { g1 with player := { shipInit with x := 550 - 35, y := 1200 },
              player_in_sprite_group := true, player_in_intro_ships := false,
              player_in_lives_group := false }
  else g

/-- Lines 416-428: the level-clear check: intro done, not respawning, no
enemies left: bump the level, rescale the wave size and the speed
multiplier, and start a 120-tick countdown. -/
noncomputable def phaseLevelClear (g : GState) : GState :=
  if g.intro_done = true ∧ g.is_respawning = false ∧ g.enemies.length = 0 then
    let level := g.level + 1
    { g with level := level,
             wave_size := min (40 + level * 5) 80,
             speed_multiplier := 1 + ((level : ℝ) - 1) * 0.15,
             is_respawning := true, respawn_timer := 120 }
  else g

/-- Lines 430-434: the second respawn block (identical countdown and
default-multiplier spawn, no player reset). -/
noncomputable def phaseRespawnB (g : GState) : GState :=
  if g.is_respawning then
    let t := g.respawn_timer - 1
    if t ≤ 0 then
      { g with respawn_timer := t, is_respawning := false,
               enemies := g.enemies ++ spawn_wave g.wave_size 1 }
    else { g with respawn_timer := t }
  else g

/-- `GameScene.update_scene` (lines 293-438), as the composition of its
sections in source order.  The trailing `if self.game_over: return` is the
method's final statement and has no effect, so it contributes nothing. -/
noncomputable def tick (inp : TickIn) (g : GState) : GState :=
  phaseRespawnB (phaseLevelClear (phaseRespawnA (phaseCollision inp
    (phaseDive inp (phaseScoring inp (phaseIntro (phaseUpdates g)))))))

/-! ### Wave-spawner lemmas -/

lemma innerCells_length (ws r : ℕ) :
    ∀ (cs : List ℕ) (count : ℕ),
      (innerCells ws count r cs).length = min (ws - count) cs.length := by
  intro cs
  induction cs with
  | nil => intro count; simp [innerCells]
  | cons c rest ih =>
      intro count
      by_cases h : ws ≤ count
      · simp only [innerCells, if_pos h, List.length_nil, List.length_cons]
        omega
      · simp only [innerCells, if_neg h, List.length_cons]
        rw [ih (count + 1)]
        omega

lemma outerCells_length (ws cols : ℕ) :
    ∀ (rs : List ℕ) (count : ℕ),
      (outerCells ws cols count rs).length = min (ws - count) (rs.length * cols) := by
  intro rs
  induction rs with
  | nil => intro count; simp [outerCells]
  | cons r rest ih =>
      intro count
      simp only [outerCells, List.length_append, List.length_cons]
      rw [ih, innerCells_length, List.length_range, add_mul, one_mul]
      omega

/-- The number of agents a wave actually contains. -/
lemma spawn_wave_length (ws : ℕ) (m : ℝ) :
    (spawn_wave ws m).length = min ws (4 * min 5 ((ws + 3) / 4)) := by
  unfold spawn_wave
  rw [List.length_map, outerCells_length, List.length_range]
  omega

/-- Every spawned agent's speed is `4 * speed_multiplier`. -/
lemma spawn_wave_speed (ws : ℕ) (m : ℝ) :
    ∀ a ∈ spawn_wave ws m, a.speed = 4 * m := by
  intro a ha
  unfold spawn_wave at ha
  rw [List.mem_map] at ha
  obtain ⟨rc, -, rfl⟩ := ha
  rfl

/-- C1 counterexample: with `wave_size = 40` the spawner creates 20
agents (the 5 x 4 grid is full before 40 are placed), not 40. -/
theorem C1_counterexample : (spawn_wave 40 1).length ≠ 40 := by
  rw [spawn_wave_length]
  decide

/-- C1 (amended): spawning places `min(wave_size, rows * cols)` agents
with `cols = min(5, ceil(wave_size / 4))`; with `wave_size = 40` that is
20 agents, not 40, laid out on the 5-column x 4-row grid of formation
slots `x in {250, 400, 550, 700, 850}`, `y in {100, 190, 280, 370}`, whose
horizontal span `[250, 850]` is centered on the 1100-wide playfield
(margin 250 on each side). -/
theorem C1_thm :
    (∀ (ws : ℕ) (m : ℝ),
      (spawn_wave ws m).length = min ws (4 * min 5 ((ws + 3) / 4))) ∧
    (spawn_wave 40 1).length = 20 ∧
    List.map Agent.formation_pos (spawn_wave 40 1) =
      [(250, 100), (400, 100), (550, 100), (700, 100), (850, 100),
       (250, 190), (400, 190), (550, 190), (700, 190), (850, 190),
       (250, 280), (400, 280), (550, 280), (700, 280), (850, 280),
       (250, 370), (400, 370), (550, 370), (700, 370), (850, 370)] ∧
    (∀ p ∈ List.map Agent.formation_pos (spawn_wave 40 1),
      250 ≤ p.1 ∧ p.1 ≤ 850) ∧
    (250 : ℤ) - 0 = 1100 - 850 := by
  refine ⟨fun ws m => spawn_wave_length ws m, ?_, ?_, ?_, by norm_num⟩
  · rw [spawn_wave_length]; decide
  · rfl
  · intro p hp
    rw [show List.map Agent.formation_pos (spawn_wave 40 1) =
      [((250:ℤ), (100:ℤ)), (400, 100), (550, 100), (700, 100), (850, 100),
       (250, 190), (400, 190), (550, 190), (700, 190), (850, 190),
       (250, 280), (400, 280), (550, 280), (700, 280), (850, 280),
       (250, 370), (400, 370), (550, 370), (700, 370), (850, 370)] from rfl] at hp
    fin_cases hp <;> norm_num

/-! ### Single-shot rule -/

/-- C6: shooting while a projectile exists changes nothing; shooting with
none creates exactly one; both `shoot` and the per-tick ship update
preserve the at-most-one-projectile invariant. -/
theorem C6_thm (s : ShipS) :
    (s.bullets ≠ [] → shoot s = s) ∧
    (s.bullets = [] → (shoot s).bullets.length = 1) ∧
    (s.bullets.length ≤ 1 → (shoot s).bullets.length ≤ 1) ∧
    (s.bullets.length ≤ 1 → (shipUpdate s).bullets.length ≤ 1) := by
  refine ⟨?_, ?_, ?_, ?_⟩
  · intro h
    unfold shoot
    rw [if_neg (by simpa [List.length_eq_zero] using h)]
  · intro h
    unfold shoot
    rw [if_pos (by simp [h])]
    simp [h]
  · intro h
    unfold shoot
    split
    · simp_all
    · exact h
  · intro h
    unfold shipUpdate
    simp only
    calc ((s.bullets.map bulletUpdate).filter (fun b => ¬ b.y ≤ 0)).length
        ≤ (s.bullets.map bulletUpdate).length := List.length_filter_le _ _
      _ = s.bullets.length := List.length_map _ _
      _ ≤ 1 := h

/-- C6 witness: a concrete ship with one bullet is unchanged by `shoot`;
a fresh ship gains exactly one bullet. -/
theorem C6_witness :
    (shoot { shipInit with bullets := [⟨582, 1230, 0, -8⟩] } =
      { shipInit with bullets := [⟨582, 1230, 0, -8⟩] }) ∧
    (shoot shipInit).bullets.length = 1 :=
  ⟨(C6_thm _).1 (by simp), (C6_thm shipInit).2.1 rfl⟩

/-! ### Dive path -/

/-- C7: the dive path is exactly the 4-point sequence
`[mid, target, mid, slot]` with the midpoint of start and target pushed
down by 200, where `target` is the player position passed in at trigger
time; and the per-tick enemy update never rewrites the stored dive path,
so the path cannot react to later player movement. -/
theorem C7_thm :
    (∀ s t e : ℤ × ℤ, create_dive_path s t e =
      [((s.1 + t.1).fdiv 2, (s.2 + t.2).fdiv 2 + 200), t,
       ((s.1 + t.1).fdiv 2, (s.2 + t.2).fdiv 2 + 200), e]) ∧
    (∀ a : Agent, (enemyUpdate a).dive_path = a.dive_path) := by
  refine ⟨fun s t e => rfl, fun a => ?_⟩
  unfold enemyUpdate
  rcases a.state <;> dsimp only <;> split <;> first | rfl | split <;> rfl

/-! ### Zero-distance safety -/

/-- C9: with positive speed, a zero distance to the current waypoint falls
into the snap branch (already arrived: position set to the waypoint, index
advanced) in both the entering and the diving states, and the
normalization branch's guard `¬ distance < speed` forces the distance to
be nonzero, so the direction normalization never divides by zero. -/
theorem C9_thm (a : Agent) (hsp : 0 < a.speed) :
    (a.state = .entering → a.current_point < a.path.length - 1 →
      dist a.pos (ptR (wp a)) = 0 →
      enemyUpdate a = { a with pos := ptR (wp a),
                               current_point := a.current_point + 1 }) ∧
    (a.state = .diving → a.dive_point < a.dive_path.length →
      dist a.pos (ptR (dwp a)) = 0 →
      enemyUpdate a = { a with pos := ptR (dwp a),
                               dive_point := a.dive_point + 1 }) ∧
    (∀ p t : ℝ × ℝ, ¬ dist p t < a.speed → dist p t ≠ 0) := by
  refine ⟨?_, ?_, ?_⟩
  · intro hst hcp hd
    unfold enemyUpdate
    rw [hst]
    dsimp only
    rw [if_pos hcp, if_pos (by rw [hd]; exact hsp)]
  · intro hst hcp hd
    unfold enemyUpdate
    rw [hst]
    dsimp only
    rw [if_pos hcp, if_pos (by rw [hd]; exact hsp)]
  · intro p t h hz
    rw [hz] at h
    exact h hsp

/-- A concrete entering agent sitting exactly on its current waypoint. -/
noncomputable def agZero : Agent :=
  { pos := (0, 0), path := [(0, 0), (3, 4)], current_point := 0,
    formation_pos := (7, 8), state := .entering,
    dive_path := [], dive_point := 0, speed := 4 }

/-- C9 witness: the zero-distance agent is snapped to the waypoint and its
index advanced. -/
theorem C9_witness :
    0 < agZero.speed ∧
    enemyUpdate agZero = { agZero with pos := ptR (wp agZero),
                                       current_point := agZero.current_point + 1 } := by
  have hsp : 0 < agZero.speed := by
    show (0:ℝ) < 4
    norm_num
  refine ⟨hsp, (C9_thm agZero hsp).1 rfl (by simp [agZero]) ?_⟩
  show dist (0, 0) (ptR ((0, 0) : ℤ × ℤ)) = 0
  simp [dist, ptR]

/-! ### Scoring -/

/-- The score written by one scoring-loop iteration, by enemy state. -/
lemma scoreStep_score (st : ScoreSt) (e : Agent) :
    (scoreStep st e).score =
      match e.state with
      | .formation => st.score + 50
      | .diving => st.score + 150
      | .entering => st.score := by
  unfold scoreStep
  rcases e.state <;> dsimp only <;> split <;> rfl

/-- One scoring-loop iteration keeps the score below the threshold and
bumps lives and threshold together, at most once. -/
lemma scoreStep_inv (st : ScoreSt) (e : Agent) (h : st.score < st.extra_life) :
    (scoreStep st e).score < (scoreStep st e).extra_life ∧
    (((scoreStep st e).lives = st.lives ∧
        (scoreStep st e).extra_life = st.extra_life) ∨
     ((scoreStep st e).lives = st.lives + 1 ∧
        (scoreStep st e).extra_life = st.extra_life + 10000)) := by
  unfold scoreStep
  rcases e.state <;> dsimp only <;> split <;>
    simp_all <;> omega

/-- Over any hit list, every threshold crossing grants exactly one life
and one 10000 raise of the threshold, and the score stays below the
threshold. -/
lemma scoreHits_inv :
    ∀ (es : List Agent) (st : ScoreSt), st.score < st.extra_life →
      ∃ k : ℕ, (scoreHits es st).lives = st.lives + k ∧
        (scoreHits es st).extra_life = st.extra_life + 10000 * k ∧
        (scoreHits es st).score < (scoreHits es st).extra_life := by
  intro es
  induction es with
  | nil => intro st h; exact ⟨0, by simp [scoreHits], by simp [scoreHits], by simpa [scoreHits] using h⟩
  | cons e rest ih =>
      intro st h
      obtain ⟨hlt, hcase⟩ := scoreStep_inv st e h
      obtain ⟨k, hk1, hk2, hk3⟩ := ih (scoreStep st e) hlt
      have hfold : scoreHits (e :: rest) st = scoreHits rest (scoreStep st e) := rfl
      rcases hcase with ⟨h1, h2⟩ | ⟨h1, h2⟩
      · exact ⟨k, by rw [hfold, hk1, h1], by rw [hfold, hk2, h2], by rw [hfold]; exact hk3⟩
      · refine ⟨k + 1, ?_, ?_, by rw [hfold]; exact hk3⟩
        · rw [hfold, hk1, h1]; push_cast; ring
        · rw [hfold, hk2, h2]; ring

/-- C5: a projectile kill of a formation enemy adds 50 to the score and a
kill of a diving enemy adds 150; whenever the post-kill score reaches the
extra-life threshold, exactly one life is granted and the threshold rises
by exactly 10000, and over any sequence of kills each crossing is counted
exactly once (lives and threshold always move in lockstep, and the score
stays below the moved threshold). -/
theorem C5_thm (st : ScoreSt) (h : st.score < st.extra_life) :
    (∀ e : Agent, e.state = .formation →
      (scoreHits [e] st).score = st.score + 50) ∧
    (∀ e : Agent, e.state = .diving →
      (scoreHits [e] st).score = st.score + 150) ∧
    (∀ e : Agent, st.extra_life ≤ (scoreStep st e).score →
      (scoreStep st e).lives = st.lives + 1 ∧
      (scoreStep st e).extra_life = st.extra_life + 10000) ∧
    (∀ e : Agent, (scoreStep st e).score < st.extra_life →
      (scoreStep st e).lives = st.lives ∧
      (scoreStep st e).extra_life = st.extra_life) ∧
    (∀ es : List Agent, ∃ k : ℕ,
      (scoreHits es st).lives = st.lives + k ∧
      (scoreHits es st).extra_life = st.extra_life + 10000 * k ∧
      (scoreHits es st).score < (scoreHits es st).extra_life) := by
  refine ⟨?_, ?_, ?_, ?_, fun es => scoreHits_inv es st h⟩
  · intro e he
    show (scoreStep st e).score = st.score + 50
    rw [scoreStep_score, he]
  · intro e he
    show (scoreStep st e).score = st.score + 150
    rw [scoreStep_score, he]
  · intro e he
    unfold scoreStep at he ⊢
    dsimp only at he ⊢
    split_ifs at he ⊢ with hc
    · exact ⟨rfl, rfl⟩
    · exact absurd he hc
  · intro e he
    unfold scoreStep at he ⊢
    dsimp only at he ⊢
    split_ifs at he ⊢ with hc
    · exact absurd hc (not_le.mpr he)
    · exact ⟨rfl, rfl⟩

/-- A concrete formation-state agent. -/
noncomputable def agForm : Agent :=
  { pos := (250, 100), path := [], current_point := 0,
    formation_pos := (250, 100), state := .formation,
    dive_path := [], dive_point := 0, speed := 4 }

/-- C5 witness: at score 9990 and threshold 10000, a formation kill brings
the score to 10040 and the crossing grants exactly one life and one
threshold raise. -/
theorem C5_witness :
    (9990 : ℕ) < 10000 ∧
    (scoreHits [agForm] ⟨9990, 3, 10000⟩).score = 9990 + 50 ∧
    ∃ k : ℕ, (scoreHits [agForm] ⟨9990, 3, 10000⟩).lives = 3 + k ∧
      (scoreHits [agForm] ⟨9990, 3, 10000⟩).extra_life = 10000 + 10000 * k ∧
      (scoreHits [agForm] ⟨9990, 3, 10000⟩).score <
        (scoreHits [agForm] ⟨9990, 3, 10000⟩).extra_life :=
  ⟨by norm_num,
   (C5_thm ⟨9990, 3, 10000⟩ (by norm_num)).1 agForm rfl,
   (C5_thm ⟨9990, 3, 10000⟩ (by norm_num)).2.2.2.2 [agForm]⟩

/-! ### Kills of entering enemies -/

lemma removeIdxAux_nil_idx : ∀ (xs : List α) (k : ℕ),
    removeIdxAux k ([] : List ℕ) xs = xs := by
  intro xs
  induction xs with
  | nil => intro k; rfl
  | cons x rest ih =>
      intro k
      simp [removeIdxAux, ih]

lemma removeIdx_nil_idx (xs : List α) : removeIdx xs ([] : List ℕ) = xs :=
  removeIdxAux_nil_idx xs 0

lemma removeIdxAux_single (j : ℕ) : ∀ (xs : List α) (k : ℕ),
    (removeIdxAux k [j] xs).length =
      xs.length - (if k ≤ j ∧ j < k + xs.length then 1 else 0) := by
  intro xs
  induction xs with
  | nil => intro k; simp [removeIdxAux]
  | cons x rest ih =>
      intro k
      by_cases h : k = j
      · simp only [removeIdxAux, List.mem_singleton, if_pos h, ih (k + 1),
          List.length_cons]
        split_ifs <;> omega
      · simp only [removeIdxAux, List.mem_singleton, if_neg h,
          List.length_cons, ih (k + 1)]
        split_ifs <;> omega

lemma removeIdx_single_length (xs : List α) (j : ℕ) (hj : j < xs.length) :
    (removeIdx xs [j]).length + 1 = xs.length := by
  unfold removeIdx
  rw [removeIdxAux_single]
  have : (0 ≤ j ∧ j < 0 + xs.length) := ⟨Nat.zero_le _, by omega⟩
  rw [if_pos this]
  omega

/-- C10: a bullet kill of an enemy that is still entering removes the
enemy but leaves the score, the lives and the extra-life threshold
untouched (only formation-state and diving-state kills score). -/
theorem C10_thm (g : GState) (inp : TickIn) (j : ℕ) (e : Agent)
    (hj : g.enemies[j]? = some e) (he : e.state = .entering)
    (hh : inp.hits = [j]) (hs : g.score < g.extra_life) :
    (phaseScoring inp g).score = g.score ∧
    (phaseScoring inp g).extra_life = g.extra_life ∧
    (phaseScoring inp g).lives = g.lives ∧
    (phaseScoring inp g).enemies.length + 1 = g.enemies.length := by
  have hstep : scoreHits [e] ⟨g.score, g.lives, g.extra_life⟩ =
      ⟨g.score, g.lives, g.extra_life⟩ := by
    show scoreStep ⟨g.score, g.lives, g.extra_life⟩ e = _
    unfold scoreStep
    rw [he]
    dsimp only
    rw [if_neg (by simpa using Nat.not_le.mpr hs)]
  have hlt : j < g.enemies.length := by
    rcases List.getElem?_eq_some.mp hj with ⟨hlt, -⟩
    exact hlt
  unfold phaseScoring
  rw [hh]
  simp only [List.filterMap_cons, List.filterMap_nil, hj]
  rw [hstep]
  exact ⟨rfl, rfl, rfl, removeIdx_single_length _ j hlt⟩

/-- A concrete entering-state agent. -/
noncomputable def agEnter : Agent :=
  { pos := (250, -70), path := [(250, -70), (250, 100)], current_point := 0,
    formation_pos := (250, 100), state := .entering,
    dive_path := [], dive_point := 0, speed := 4 }

/-- A concrete post-intro game state: intro finished, first wave pending
in `enemies`, fresh player at the respawn position, full lives. -/
noncomputable def gBase : GState :=
  { lives := 3, num_lives_icons := 2, respawn_timer := 0,
    is_respawning := false, intro_timer := 400, start_descent := true,
    intro_moving := false, player_control_enable := true, wave_size := 40,
    enemies := [], score := 0, level := 1, speed_multiplier := 1,
    extra_life := 10000, game_over := false, intro_done := true,
    intro_left_ship := { x := 515, y := 1200, vel_x := 0, vel_y := 0,
                         speed := 5, bullets := [] },
    player := { x := 515, y := 1200, vel_x := 0, vel_y := 0, speed := 5,
                bullets := [] },
    player_in_sprite_group := true, player_in_intro_ships := false,
    player_in_lives_group := false }

/-- Tick input where the external collaborators report nothing: no bullet
hits, a dive roll of 1 (never below the dive chance for sane levels), no
player-enemy overlap. -/
noncomputable def inpNone : TickIn :=
  { hits := [], bullets_hit := [], dive_roll := 1, dive_pick := 0,
    player_hit := false }

/-- C10 witness: destroying the concrete entering agent leaves score,
lives and threshold unchanged and shrinks the enemy list by one. -/
theorem C10_witness :
    (phaseScoring { inpNone with hits := [0] }
        { gBase with enemies := [agEnter] }).score =
      ({ gBase with enemies := [agEnter] } : GState).score ∧
    (phaseScoring { inpNone with hits := [0] }
        { gBase with enemies := [agEnter] }).extra_life =
      ({ gBase with enemies := [agEnter] } : GState).extra_life ∧
    (phaseScoring { inpNone with hits := [0] }
        { gBase with enemies := [agEnter] }).lives =
      ({ gBase with enemies := [agEnter] } : GState).lives ∧
    (phaseScoring { inpNone with hits := [0] }
        { gBase with enemies := [agEnter] }).enemies.length + 1 =
      ({ gBase with enemies := [agEnter] } : GState).enemies.length :=
  C10_thm { gBase with enemies := [agEnter] } { inpNone with hits := [0] }
    0 agEnter rfl rfl rfl (by norm_num [gBase])

/-! ### Entrance path shape -/

lemma arc_length (sx sy : ℝ) (flip : Bool) (fp : ℤ × ℤ) :
    (create_arc_path sx sy flip fp).length = 100 := by
  unfold create_arc_path spiralPart
  simp

lemma arc_getLast (sx sy : ℝ) (flip : Bool) (fp : ℤ × ℤ) :
    (create_arc_path sx sy flip fp).getLast? =
      some (pyInt (((spiralEnd sx sy flip).1 : ℝ) +
              ((fp.1 : ℝ) - ((spiralEnd sx sy flip).1 : ℝ)) / 40 * ((39 : ℕ) : ℝ)),
            pyInt (((spiralEnd sx sy flip).2 : ℝ) +
              ((fp.2 : ℝ) - ((spiralEnd sx sy flip).2 : ℝ)) / 40 * ((39 : ℕ) : ℝ))) := by
  unfold create_arc_path
  dsimp only
  rw [show (40 : ℕ) = 39 + 1 from rfl, List.range_succ, List.map_append,
    ← List.append_assoc]
  rw [List.getLast?_append_of_ne_nil _ (by simp)]
  rfl

/-- C2 (amended): for every input the entrance path is a non-empty list
of 100 waypoints; its last element is the 39th of the 40 interpolation
steps, i.e. it lies one fortieth of the remaining offset short of the
formation slot (before truncation), rather than being the slot itself. -/
theorem C2_thm (sx sy : ℝ) (flip : Bool) (fp : ℤ × ℤ) :
    (create_arc_path sx sy flip fp).length = 100 ∧
    create_arc_path sx sy flip fp ≠ [] ∧
    (create_arc_path sx sy flip fp).getLast? =
      some (pyInt (((spiralEnd sx sy flip).1 : ℝ) +
              ((fp.1 : ℝ) - ((spiralEnd sx sy flip).1 : ℝ)) / 40 * ((39 : ℕ) : ℝ)),
            pyInt (((spiralEnd sx sy flip).2 : ℝ) +
              ((fp.2 : ℝ) - ((spiralEnd sx sy flip).2 : ℝ)) / 40 * ((39 : ℕ) : ℝ))) :=
  ⟨arc_length sx sy flip fp,
   fun h => by simpa [h] using arc_length sx sy flip fp,
   arc_getLast sx sy flip fp⟩

lemma spiralEnd_fst_bounds :
    247 ≤ (spiralEnd 250 (-70) false).1 ∧ (spiralEnd 250 (-70) false).1 ≤ 253 := by
  have hEnd : (spiralEnd 250 (-70) false).1 =
      pyInt (250 + 180 * (1 - ((59 : ℕ) : ℝ) / 60) *
        Real.cos ((((59 : ℕ) : ℝ) / 40) * (2 * Real.pi))) := by
    unfold spiralEnd spiralPart
    rw [show (60 : ℕ) = 59 + 1 from rfl, List.range_succ, List.map_append]
    rw [List.getLast?_append_of_ne_nil _ (by simp)]
    rfl
  set c := Real.cos ((((59 : ℕ) : ℝ) / 40) * (2 * Real.pi)) with hc
  have hc1 : c ≤ 1 := Real.cos_le_one _
  have hc2 : -1 ≤ c := Real.neg_one_le_cos _
  have hval : (250 : ℝ) + 180 * (1 - ((59 : ℕ) : ℝ) / 60) * c = 250 + 3 * c := by
    push_cast
    ring
  rw [hEnd, hval]
  have h0 : (0 : ℝ) ≤ 250 + 3 * c := by linarith
  rw [pyInt, if_pos h0]
  constructor
  · exact Int.le_floor.mpr (by push_cast; linarith)
  · have h4 : ⌊(250 : ℝ) + 3 * c⌋ < 254 := Int.floor_lt.mpr (by push_cast; linarith)
    omega

/-- C2 counterexample: for the concrete game spawn input (start
`(250, -70)`, no flip, formation slot `(850, 200)`) the path's last
element is not the formation slot: its x-coordinate is at most 835. -/
theorem C2_counterexample :
    (create_arc_path 250 (-70) false (850, 200)).getLast? ≠
      some ((850 : ℤ), (200 : ℤ)) := by
  rw [arc_getLast]
  intro h
  obtain ⟨hF1, hF2⟩ := spiralEnd_fst_bounds
  set F : ℤ := (spiralEnd 250 (-70) false).1 with hFdef
  have hx : pyInt ((F : ℝ) + (((850 : ℤ) : ℝ) - (F : ℝ)) / 40 * ((39 : ℕ) : ℝ)) =
      (850 : ℤ) := by
    have := Option.some.inj h
    exact congrArg Prod.fst this
  have hFr1 : (247 : ℝ) ≤ (F : ℝ) := by exact_mod_cast hF1
  have hFr2 : (F : ℝ) ≤ 253 := by exact_mod_cast hF2
  have hv0 : (0 : ℝ) ≤ (F : ℝ) + (((850 : ℤ) : ℝ) - (F : ℝ)) / 40 * ((39 : ℕ) : ℝ) := by
    push_cast
    linarith
  rw [pyInt, if_pos hv0] at hx
  have hlt : ⌊(F : ℝ) + (((850 : ℤ) : ℝ) - (F : ℝ)) / 40 * ((39 : ℕ) : ℝ)⌋ < 836 := by
    apply Int.floor_lt.mpr
    push_cast
    linarith
  rw [hx] at hlt
  omega

/-! ### Entering agents reach their formation slot -/

/-- Moving `s` units along the normalized direction shortens the distance
by exactly `s` (real-arithmetic model of the waypoint-following step). -/
lemma dist_step (p t : ℝ × ℝ) (s : ℝ) (hs : 0 < s) (h : s ≤ dist p t) :
    dist (stepToward p t s) t = dist p t - s := by
  have hd : 0 < dist p t := lt_of_lt_of_le hs h
  have hdne : dist p t ≠ 0 := ne_of_gt hd
  have hDD : dist p t ^ 2 = (t.1 - p.1) ^ 2 + (t.2 - p.2) ^ 2 :=
    Real.sq_sqrt (by positivity)
  have e1 : t.1 - (p.1 + (t.1 - p.1) / dist p t * s) =
      (t.1 - p.1) * ((dist p t - s) / dist p t) := by
    field_simp
    ring
  have e2 : t.2 - (p.2 + (t.2 - p.2) / dist p t * s) =
      (t.2 - p.2) * ((dist p t - s) / dist p t) := by
    field_simp
    ring
  have key : (t.1 - (stepToward p t s).1) ^ 2 + (t.2 - (stepToward p t s).2) ^ 2 =
      (dist p t - s) ^ 2 := by
    show (t.1 - (p.1 + (t.1 - p.1) / dist p t * s)) ^ 2 +
        (t.2 - (p.2 + (t.2 - p.2) / dist p t * s)) ^ 2 = _
    rw [e1, e2]
    have expand : ((t.1 - p.1) * ((dist p t - s) / dist p t)) ^ 2 +
        ((t.2 - p.2) * ((dist p t - s) / dist p t)) ^ 2 =
        ((t.1 - p.1) ^ 2 + (t.2 - p.2) ^ 2) * ((dist p t - s) / dist p t) ^ 2 := by
      ring
    rw [expand, ← hDD, div_pow]
    rw [mul_div_cancel₀ _ (pow_ne_zero 2 hdne)]
  have hrfl : dist (stepToward p t s) t =
      Real.sqrt ((t.1 - (stepToward p t s).1) ^ 2 + (t.2 - (stepToward p t s).2) ^ 2) := rfl
  rw [hrfl, key, Real.sqrt_sq (by linarith)]

/-- The truncation `pyInt` moves a value by strictly less than 1. -/
lemma pyInt_err (v : ℝ) : |((pyInt v : ℤ) : ℝ) - v| < 1 := by
  unfold pyInt
  split_ifs with h
  · rw [abs_lt]
    constructor
    · have := Int.sub_one_lt_floor v
      linarith
    · have := Int.floor_le v
      linarith
  · rw [abs_lt]
    constructor
    · have := Int.le_ceil v
      linarith
    · have := Int.ceil_lt_add_one v
      linarith

/-- Triangle inequality for the update's distance function. -/
lemma dist_triangle' (p q r : ℝ × ℝ) : dist p r ≤ dist p q + dist q r := by
  have hA0 : 0 ≤ dist p q := Real.sqrt_nonneg _
  have hB0 : 0 ≤ dist q r := Real.sqrt_nonneg _
  have hA2 : dist p q ^ 2 = (q.1 - p.1) ^ 2 + (q.2 - p.2) ^ 2 :=
    Real.sq_sqrt (by positivity)
  have hB2 : dist q r ^ 2 = (r.1 - q.1) ^ 2 + (r.2 - q.2) ^ 2 :=
    Real.sq_sqrt (by positivity)
  have hCS : (q.1 - p.1) * (r.1 - q.1) + (q.2 - p.2) * (r.2 - q.2) ≤
      dist p q * dist q r := by
    have hprod : ((q.1 - p.1) * (r.1 - q.1) + (q.2 - p.2) * (r.2 - q.2)) ^ 2 ≤
        (dist p q * dist q r) ^ 2 := by
      rw [mul_pow, hA2, hB2]
      nlinarith [sq_nonneg ((q.1 - p.1) * (r.2 - q.2) - (q.2 - p.2) * (r.1 - q.1))]
    nlinarith [mul_nonneg hA0 hB0]
  have key : (r.1 - p.1) ^ 2 + (r.2 - p.2) ^ 2 ≤ (dist p q + dist q r) ^ 2 := by
    nlinarith [hA2, hB2, hCS]
  calc dist p r = Real.sqrt ((r.1 - p.1) ^ 2 + (r.2 - p.2) ^ 2) := rfl
    _ ≤ Real.sqrt ((dist p q + dist q r) ^ 2) := Real.sqrt_le_sqrt key
    _ = dist p q + dist q r := Real.sqrt_sq (by positivity)

/-- The truncating move lands within 1.5 of the exact landing point, so
one integer-semantics move still shortens the distance to the waypoint by
more than `speed - 1.5`. -/
lemma moveTowardInt_close (p t : ℤ × ℤ) (s : ℝ) (hs : 0 < s)
    (h : s ≤ dist (ptR p) (ptR t)) :
    dist (ptR (moveTowardInt p t s)) (ptR t) ≤ dist (ptR p) (ptR t) - s + 1.5 := by
  have hde : dist (stepToward (ptR p) (ptR t) s) (ptR t) =
      dist (ptR p) (ptR t) - s := dist_step _ _ _ hs h
  have hx : |((moveTowardInt p t s).1 : ℝ) - (stepToward (ptR p) (ptR t) s).1| < 1 :=
    pyInt_err _
  have hy : |((moveTowardInt p t s).2 : ℝ) - (stepToward (ptR p) (ptR t) s).2| < 1 :=
    pyInt_err _
  have htr : dist (ptR (moveTowardInt p t s)) (stepToward (ptR p) (ptR t) s) < 1.5 := by
    rw [abs_lt] at hx hy
    have h1 : ((stepToward (ptR p) (ptR t) s).1 - (ptR (moveTowardInt p t s)).1) ^ 2 < 1 := by
      have hx1 := hx.1
      have hx2 := hx.2
      show ((stepToward (ptR p) (ptR t) s).1 - ((moveTowardInt p t s).1 : ℝ)) ^ 2 < 1
      nlinarith
    have h2 : ((stepToward (ptR p) (ptR t) s).2 - (ptR (moveTowardInt p t s)).2) ^ 2 < 1 := by
      have hy1 := hy.1
      have hy2 := hy.2
      show ((stepToward (ptR p) (ptR t) s).2 - ((moveTowardInt p t s).2 : ℝ)) ^ 2 < 1
      nlinarith
    have hsum : ((stepToward (ptR p) (ptR t) s).1 - (ptR (moveTowardInt p t s)).1) ^ 2 +
        ((stepToward (ptR p) (ptR t) s).2 - (ptR (moveTowardInt p t s)).2) ^ 2 < 2.25 := by
      linarith
    calc dist (ptR (moveTowardInt p t s)) (stepToward (ptR p) (ptR t) s)
        = Real.sqrt (((stepToward (ptR p) (ptR t) s).1 - (ptR (moveTowardInt p t s)).1) ^ 2 +
            ((stepToward (ptR p) (ptR t) s).2 - (ptR (moveTowardInt p t s)).2) ^ 2) := rfl
      _ < Real.sqrt 2.25 := Real.sqrt_lt_sqrt (by positivity) hsum
      _ = 1.5 := by
          rw [show (2.25 : ℝ) = 1.5 ^ 2 by norm_num]
          exact Real.sqrt_sq (by norm_num)
  calc dist (ptR (moveTowardInt p t s)) (ptR t)
      ≤ dist (ptR (moveTowardInt p t s)) (stepToward (ptR p) (ptR t) s) +
        dist (stepToward (ptR p) (ptR t) s) (ptR t) := dist_triangle' _ _ _
    _ ≤ dist (ptR p) (ptR t) - s + 1.5 := by
        rw [hde]
        linarith

/-- Under the integer rect semantics, an entering agent with speed above
1.5 whose distance to its waypoint is at most `k * (speed - 1.5)` snaps
onto that waypoint (advancing the index) in finitely many ticks. -/
lemma enemy_reach_int :
    ∀ (k : ℕ) (a : AgentI), a.state = .entering → 1.5 < a.speed →
      a.current_point < a.path.length - 1 →
      dist (ptR a.pos) (ptR (wpI a)) ≤ (k : ℝ) * (a.speed - 1.5) →
      ∃ m : ℕ, enemyUpdateInt^[m] a =
        { a with pos := wpI a, current_point := a.current_point + 1 } := by
  intro k
  induction k with
  | zero =>
      intro a hst hsp hcp hd
      have hs0 : 0 < a.speed := by linarith
      have hd0 : dist (ptR a.pos) (ptR (wpI a)) = 0 :=
        le_antisymm (by simpa using hd) (Real.sqrt_nonneg _)
      refine ⟨1, ?_⟩
      rw [Function.iterate_one]
      unfold enemyUpdateInt
      rw [hst]
      dsimp only
      rw [if_pos hcp, if_pos (by rw [hd0]; exact hs0)]
  | succ k ih =>
      intro a hst hsp hcp hd
      by_cases hlt : dist (ptR a.pos) (ptR (wpI a)) < a.speed
      · refine ⟨1, ?_⟩
        rw [Function.iterate_one]
        unfold enemyUpdateInt
        rw [hst]
        dsimp only
        rw [if_pos hcp, if_pos hlt]
      · have hs0 : 0 < a.speed := by linarith
        have hstep : enemyUpdateInt a =
            { a with pos := moveTowardInt a.pos (wpI a) a.speed } := by
          unfold enemyUpdateInt
          rw [hst]
          dsimp only
          rw [if_pos hcp, if_neg hlt]
        set a1 : AgentI := { a with pos := moveTowardInt a.pos (wpI a) a.speed }
          with ha1
        have hd1 : dist (ptR a1.pos) (ptR (wpI a1)) ≤ (k : ℝ) * (a1.speed - 1.5) := by
          show dist (ptR (moveTowardInt a.pos (wpI a) a.speed)) (ptR (wpI a)) ≤
            (k : ℝ) * (a.speed - 1.5)
          have hcl := moveTowardInt_close a.pos (wpI a) a.speed hs0 (not_lt.mp hlt)
          have hd' : dist (ptR a.pos) (ptR (wpI a)) ≤ ((k : ℝ) + 1) * (a.speed - 1.5) := by
            push_cast at hd
            linarith
          linarith
        obtain ⟨m, hm⟩ := ih a1 hst hsp hcp hd1
        refine ⟨m + 1, ?_⟩
        rw [Function.iterate_succ_apply, hstep]
        exact hm

/-- Under the integer rect semantics, any entering agent with speed above
1.5 eventually transitions to formation, snapped to its slot. -/
lemma enemy_advance_int :
    ∀ (fuel : ℕ) (a : AgentI), a.state = .entering → 1.5 < a.speed →
      a.path.length - 1 - a.current_point ≤ fuel →
      ∃ n : ℕ, (enemyUpdateInt^[n] a).state = .formation ∧
        (enemyUpdateInt^[n] a).pos = a.formation_pos := by
  intro fuel
  induction fuel with
  | zero =>
      intro a hst hsp hfuel
      have hcp : ¬ a.current_point < a.path.length - 1 := by omega
      refine ⟨1, ?_, ?_⟩ <;>
      · rw [Function.iterate_one]
        unfold enemyUpdateInt
        rw [hst]
        dsimp only
        rw [if_neg hcp]
  | succ fuel ih =>
      intro a hst hsp hfuel
      by_cases hcp : a.current_point < a.path.length - 1
      · obtain ⟨k, hk⟩ := exists_nat_ge (dist (ptR a.pos) (ptR (wpI a)) / (a.speed - 1.5))
        have hdk : dist (ptR a.pos) (ptR (wpI a)) ≤ (k : ℝ) * (a.speed - 1.5) := by
          rw [div_le_iff₀ (by linarith)] at hk
          linarith
        obtain ⟨m, hm⟩ := enemy_reach_int k a hst hsp hcp hdk
        set a2 : AgentI := { a with pos := wpI a,
                                    current_point := a.current_point + 1 } with ha2
        have h2fuel : a2.path.length - 1 - a2.current_point ≤ fuel := by
          show a.path.length - 1 - (a.current_point + 1) ≤ fuel
          omega
        obtain ⟨n, hn1, hn2⟩ := ih a2 hst hsp h2fuel
        refine ⟨n + m, ?_, ?_⟩
        · rw [Function.iterate_add_apply, hm]
          exact hn1
        · rw [Function.iterate_add_apply, hm]
          exact hn2
      · refine ⟨1, ?_, ?_⟩ <;>
        · rw [Function.iterate_one]
          unfold enemyUpdateInt
          rw [hst]
          dsimp only
          rw [if_neg hcp]

/-- C3 (amended): under the faithful integer rect semantics, every
entering agent whose per-agent speed exceeds 1.5 — in particular the
claimed speeds 4 and 50, and every speed the game assigns
(`4 * speed_multiplier` with multiplier ≥ 1) — ticked repeatedly,
exhausts its path and ends in the formation state positioned exactly on
its formation slot.  Speed 1, which the claim also names, is excluded:
the truncating position update can stall forever (see the
counterexample). -/
theorem C3_thm (a : AgentI) (h1 : a.state = .entering) (h2 : 1.5 < a.speed) :
    ∃ n : ℕ, (enemyUpdateInt^[n] a).state = .formation ∧
      (enemyUpdateInt^[n] a).pos = a.formation_pos :=
  enemy_advance_int (a.path.length - 1 - a.current_point) a h1 h2 le_rfl

/-- A concrete integer-position entering agent with speed 4. -/
noncomputable def agEnterI : AgentI :=
  { pos := (250, -70), path := [(250, -70), (250, 100)], current_point := 0,
    formation_pos := (250, 100), state := .entering,
    dive_path := [], dive_point := 0, speed := 4 }

/-- C3 witness: the concrete speed-4 agent reaches formation exactly on
its slot under the integer semantics. -/
theorem C3_witness :
    agEnterI.state = .entering ∧ 1.5 < agEnterI.speed ∧
    ∃ n : ℕ, (enemyUpdateInt^[n] agEnterI).state = .formation ∧
      (enemyUpdateInt^[n] agEnterI).pos = agEnterI.formation_pos := by
  have hsp : 1.5 < agEnterI.speed := by
    show (1.5 : ℝ) < 4
    norm_num
  exact ⟨rfl, hsp, C3_thm agEnterI rfl hsp⟩

/-- A speed-1 entering agent sitting at `(235, 107)` before the waypoint
`(250, 115)` — the segment the spawn spiral actually crosses.  The
distance is exactly 17, both per-axis steps (`15/17`, `8/17`) are
fractional, and the truncating assignment moves neither coordinate. -/
noncomputable def agStall : AgentI :=
  { pos := (235, 107), path := [(250, 115), (250, 100)], current_point := 0,
    formation_pos := (250, 100), state := .entering,
    dive_path := [], dive_point := 0, speed := 1 }

/-- C3 counterexample: at speed 1 (a speed the claim names) the integer
rect semantics makes the update a fixed point while still entering, so no
number of ticks ever exhausts the path or reaches the formation state. -/
theorem C3_counterexample :
    agStall.state = .entering ∧ agStall.speed = 1 ∧ 0 < agStall.speed ∧
    enemyUpdateInt agStall = agStall ∧
    ∀ n : ℕ, (enemyUpdateInt^[n] agStall).state ≠ .formation := by
  have hdist : dist (ptR ((235 : ℤ), (107 : ℤ))) (ptR ((250 : ℤ), (115 : ℤ))) = 17 := by
    unfold dist ptR
    push_cast
    rw [show ((250 : ℝ) - 235) ^ 2 + ((115 : ℝ) - 107) ^ 2 = 17 ^ 2 by norm_num]
    exact Real.sqrt_sq (by norm_num)
  have hfix : enemyUpdateInt agStall = agStall := by
    have hguard : ¬ dist (ptR agStall.pos) (ptR (wpI agStall)) < agStall.speed := by
      have e : dist (ptR agStall.pos) (ptR (wpI agStall)) = 17 := hdist
      rw [e]
      have hs : agStall.speed = 1 := rfl
      rw [hs]
      norm_num
    have hmv : moveTowardInt agStall.pos (wpI agStall) agStall.speed = (235, 107) := by
      show moveTowardInt ((235 : ℤ), (107 : ℤ)) ((250 : ℤ), (115 : ℤ)) 1 = (235, 107)
      unfold moveTowardInt
      rw [hdist]
      have hx : pyInt (((235 : ℤ) : ℝ) + (((250 : ℤ) : ℝ) - ((235 : ℤ) : ℝ)) / 17 * 1) = 235 := by
        rw [pyInt, if_pos (by push_cast; norm_num)]
        apply Int.floor_eq_iff.mpr
        constructor
        · push_cast
          norm_num
        · push_cast
          norm_num
      have hy : pyInt (((107 : ℤ) : ℝ) + (((115 : ℤ) : ℝ) - ((107 : ℤ) : ℝ)) / 17 * 1) = 107 := by
        rw [pyInt, if_pos (by push_cast; norm_num)]
        apply Int.floor_eq_iff.mpr
        constructor
        · push_cast
          norm_num
        · push_cast
          norm_num
      rw [hx, hy]
    have hcp : agStall.current_point < agStall.path.length - 1 := by decide
    unfold enemyUpdateInt
    rw [show agStall.state = EState.entering from rfl]
    dsimp only
    rw [if_pos hcp, if_neg hguard, hmv]
    rfl
  refine ⟨rfl, rfl, ?_, hfix, ?_⟩
  · show (0 : ℝ) < 1
    norm_num
  · intro n
    rw [Function.iterate_fixed hfix n]
    decide

/-! ### Per-phase bookkeeping lemmas for the scene tick -/

lemma phaseUpdates_core (g : GState) :
    (phaseUpdates g).lives = g.lives ∧ (phaseUpdates g).level = g.level ∧
    (phaseUpdates g).score = g.score ∧
    (phaseUpdates g).extra_life = g.extra_life ∧
    (phaseUpdates g).wave_size = g.wave_size ∧
    (phaseUpdates g).speed_multiplier = g.speed_multiplier ∧
    (phaseUpdates g).is_respawning = g.is_respawning ∧
    (phaseUpdates g).respawn_timer = g.respawn_timer ∧
    (phaseUpdates g).intro_done = g.intro_done ∧
    (phaseUpdates g).game_over = g.game_over := by
  unfold phaseUpdates
  split <;> simp

lemma phaseUpdates_respawning (g : GState) (h : g.is_respawning = true) :
    phaseUpdates g = g := by
  unfold phaseUpdates
  rw [if_pos h]

lemma phaseUpdates_enemies (g : GState) (h : g.is_respawning = false) :
    (phaseUpdates g).enemies = (g.enemies.map enemyUpdate).map enemyUpdate := by
  unfold phaseUpdates
  rw [if_neg (by simp [h])]

lemma phaseIntro_core (g : GState) :
    (phaseIntro g).lives = g.lives ∧ (phaseIntro g).level = g.level ∧
    (phaseIntro g).score = g.score ∧
    (phaseIntro g).extra_life = g.extra_life ∧
    (phaseIntro g).wave_size = g.wave_size ∧
    (phaseIntro g).speed_multiplier = g.speed_multiplier ∧
    (phaseIntro g).is_respawning = g.is_respawning ∧
    (phaseIntro g).respawn_timer = g.respawn_timer ∧
    (phaseIntro g).game_over = g.game_over ∧
    (phaseIntro g).enemies = g.enemies ∧
    (g.intro_done = true → (phaseIntro g).intro_done = true) := by
  unfold phaseIntro
  dsimp only
  split_ifs <;> simp_all

lemma phaseScoring_core (inp : TickIn) (g : GState) (hh : inp.hits = []) :
    (phaseScoring inp g).lives = g.lives ∧ (phaseScoring inp g).level = g.level ∧
    (phaseScoring inp g).score = g.score ∧
    (phaseScoring inp g).extra_life = g.extra_life ∧
    (phaseScoring inp g).wave_size = g.wave_size ∧
    (phaseScoring inp g).speed_multiplier = g.speed_multiplier ∧
    (phaseScoring inp g).is_respawning = g.is_respawning ∧
    (phaseScoring inp g).respawn_timer = g.respawn_timer ∧
    (phaseScoring inp g).intro_done = g.intro_done ∧
    (phaseScoring inp g).game_over = g.game_over ∧
    (phaseScoring inp g).enemies = g.enemies := by
  unfold phaseScoring
  rw [hh]
  simp [scoreHits, removeIdx_nil_idx]

lemma phaseScoring_score (inp : TickIn) (g : GState) :
    (phaseScoring inp g).score =
      (scoreHits (inp.hits.filterMap (fun i => g.enemies[i]?))
        ⟨g.score, g.lives, g.extra_life⟩).score := rfl

lemma phaseDive_core (inp : TickIn) (g : GState) :
    (phaseDive inp g).lives = g.lives ∧ (phaseDive inp g).level = g.level ∧
    (phaseDive inp g).score = g.score ∧
    (phaseDive inp g).extra_life = g.extra_life ∧
    (phaseDive inp g).wave_size = g.wave_size ∧
    (phaseDive inp g).speed_multiplier = g.speed_multiplier ∧
    (phaseDive inp g).is_respawning = g.is_respawning ∧
    (phaseDive inp g).respawn_timer = g.respawn_timer ∧
    (phaseDive inp g).intro_done = g.intro_done ∧
    (phaseDive inp g).game_over = g.game_over ∧
    (g.enemies = [] → (phaseDive inp g).enemies = []) := by
  unfold phaseDive
  dsimp only
  split_ifs <;> simp_all

lemma phaseCollision_skip (inp : TickIn) (g : GState)
    (hp : inp.player_hit = false) : phaseCollision inp g = g := by
  unfold phaseCollision
  rw [if_neg (by simp [hp])]

lemma phaseCollision_spec (inp : TickIn) (g : GState)
    (hd : g.intro_done = true) (hp : inp.player_hit = true) :
    (phaseCollision inp g).lives = g.lives - 1 ∧
    (phaseCollision inp g).level = g.level + 1 ∧
    (phaseCollision inp g).wave_size = min (g.wave_size + 15) 80 ∧
    (phaseCollision inp g).enemies =
      spawn_wave (min (g.wave_size + 15) 80) g.speed_multiplier ∧
    (phaseCollision inp g).is_respawning = true ∧
    (phaseCollision inp g).respawn_timer = 180 ∧
    (phaseCollision inp g).speed_multiplier = g.speed_multiplier ∧
    (phaseCollision inp g).score = g.score ∧
    (phaseCollision inp g).game_over =
      (if 0 < g.lives - 1 then g.game_over else true) ∧
    (phaseCollision inp g).intro_done = g.intro_done := by
  unfold phaseCollision player_death
  rw [if_pos ⟨hd, hp⟩]
  dsimp only
  split_ifs <;> simp_all

lemma phaseCollision_score (inp : TickIn) (g : GState) :
    (phaseCollision inp g).score = g.score := by
  unfold phaseCollision player_death
  dsimp only
  split_ifs <;> simp

lemma phaseRespawnA_skip (g : GState) (h : g.is_respawning = false) :
    phaseRespawnA g = g := by
  unfold phaseRespawnA
  rw [if_neg (by simp [h])]

lemma phaseRespawnA_count (g : GState) (hr : g.is_respawning = true)
    (ht : ¬ g.respawn_timer - 1 ≤ 0) :
    (phaseRespawnA g).lives = g.lives ∧ (phaseRespawnA g).level = g.level ∧
    (phaseRespawnA g).score = g.score ∧
    (phaseRespawnA g).extra_life = g.extra_life ∧
    (phaseRespawnA g).wave_size = g.wave_size ∧
    (phaseRespawnA g).speed_multiplier = g.speed_multiplier ∧
    (phaseRespawnA g).enemies = g.enemies ∧
    (phaseRespawnA g).is_respawning = true ∧
    (phaseRespawnA g).respawn_timer = g.respawn_timer - 1 ∧
    (phaseRespawnA g).intro_done = g.intro_done ∧
    (phaseRespawnA g).game_over = g.game_over := by
  unfold phaseRespawnA
  rw [if_pos hr]
  dsimp only
  rw [if_neg ht]
  simp [hr]

lemma phaseRespawnA_fire (g : GState) (hr : g.is_respawning = true)
    (ht : g.respawn_timer - 1 ≤ 0) :
    (phaseRespawnA g).lives = g.lives ∧ (phaseRespawnA g).level = g.level ∧
    (phaseRespawnA g).score = g.score ∧
    (phaseRespawnA g).extra_life = g.extra_life ∧
    (phaseRespawnA g).wave_size = g.wave_size ∧
    (phaseRespawnA g).speed_multiplier = g.speed_multiplier ∧
    (phaseRespawnA g).enemies = g.enemies ++ spawn_wave g.wave_size 1 ∧
    (phaseRespawnA g).is_respawning = false ∧
    (phaseRespawnA g).respawn_timer = g.respawn_timer - 1 ∧
    (phaseRespawnA g).intro_done = g.intro_done ∧
    (phaseRespawnA g).game_over = g.game_over := by
  unfold phaseRespawnA
  rw [if_pos hr]
  dsimp only
  rw [if_pos ht]
  simp

lemma phaseRespawnA_score (g : GState) :
    (phaseRespawnA g).score = g.score := by
  unfold phaseRespawnA
  dsimp only
  split_ifs <;> simp

lemma phaseLevelClear_skip_respawning (g : GState)
    (h : g.is_respawning = true) : phaseLevelClear g = g := by
  unfold phaseLevelClear
  rw [if_neg (by simp [h])]

lemma phaseLevelClear_skip_enemies (g : GState)
    (h : g.enemies.length ≠ 0) : phaseLevelClear g = g := by
  unfold phaseLevelClear
  rw [if_neg (by simp [h])]

lemma phaseLevelClear_fire (g : GState) (h1 : g.intro_done = true)
    (h2 : g.is_respawning = false) (h3 : g.enemies.length = 0) :
    (phaseLevelClear g).lives = g.lives ∧
    (phaseLevelClear g).level = g.level + 1 ∧
    (phaseLevelClear g).score = g.score ∧
    (phaseLevelClear g).extra_life = g.extra_life ∧
    (phaseLevelClear g).wave_size = min (40 + (g.level + 1) * 5) 80 ∧
    (phaseLevelClear g).speed_multiplier =
      1 + (((g.level : ℝ) + 1) - 1) * 0.15 ∧
    (phaseLevelClear g).is_respawning = true ∧
    (phaseLevelClear g).respawn_timer = 120 ∧
    (phaseLevelClear g).intro_done = g.intro_done ∧
    (phaseLevelClear g).game_over = g.game_over := by
  unfold phaseLevelClear
  rw [if_pos ⟨h1, h2, h3⟩]
  dsimp only
  refine ⟨rfl, rfl, rfl, rfl, rfl, ?_, rfl, rfl, rfl, rfl⟩
  push_cast
  ring

lemma phaseLevelClear_score (g : GState) :
    (phaseLevelClear g).score = g.score := by
  unfold phaseLevelClear
  split_ifs <;> simp

lemma phaseRespawnB_skip (g : GState) (h : g.is_respawning = false) :
    phaseRespawnB g = g := by
  unfold phaseRespawnB
  rw [if_neg (by simp [h])]

lemma phaseRespawnB_count (g : GState) (hr : g.is_respawning = true)
    (ht : ¬ g.respawn_timer - 1 ≤ 0) :
    (phaseRespawnB g).lives = g.lives ∧ (phaseRespawnB g).level = g.level ∧
    (phaseRespawnB g).score = g.score ∧
    (phaseRespawnB g).extra_life = g.extra_life ∧
    (phaseRespawnB g).wave_size = g.wave_size ∧
    (phaseRespawnB g).speed_multiplier = g.speed_multiplier ∧
    (phaseRespawnB g).enemies = g.enemies ∧
    (phaseRespawnB g).is_respawning = true ∧
    (phaseRespawnB g).respawn_timer = g.respawn_timer - 1 ∧
    (phaseRespawnB g).intro_done = g.intro_done ∧
    (phaseRespawnB g).game_over = g.game_over := by
  unfold phaseRespawnB
  rw [if_pos hr]
  dsimp only
  rw [if_neg ht]
  simp [hr]

lemma phaseRespawnB_score (g : GState) :
    (phaseRespawnB g).score = g.score := by
  unfold phaseRespawnB
  dsimp only
  split_ifs <;> simp

lemma enemyUpdate_formation (a : Agent) (h : a.state = .formation) :
    (enemyUpdate a).state = .formation := by
  unfold enemyUpdate
  rw [h]

/-! ### The player-death tick -/

/-- What one tick does when the collision query reports a player-enemy
overlap (and no bullet hits): the life is lost, the level bumped, the
enemy group immediately replaced by a fresh escalated wave, and the
countdown (set to 180 mid-tick) already decremented twice. -/
lemma tick_collision (g : GState) (inp : TickIn)
    (hd : g.intro_done = true) (hp : inp.player_hit = true)
    (hh : inp.hits = []) :
    (tick inp g).lives = g.lives - 1 ∧
    (tick inp g).level = g.level + 1 ∧
    (tick inp g).enemies =
      spawn_wave (min (g.wave_size + 15) 80) g.speed_multiplier ∧
    (tick inp g).is_respawning = true ∧
    (tick inp g).respawn_timer = 178 ∧
    (tick inp g).game_over = (if 0 < g.lives - 1 then g.game_over else true) := by
  obtain ⟨u1, u2, u3, u4, u5, u6, u7, u8, u9, u10⟩ := phaseUpdates_core g
  obtain ⟨i1, i2, i3, i4, i5, i6, i7, i8, i10, i11, i9⟩ :=
    phaseIntro_core (phaseUpdates g)
  set g2 := phaseIntro (phaseUpdates g) with hg2
  obtain ⟨s1, s2, s3, s4, s5, s6, s7, s8, s9, s10, s11⟩ :=
    phaseScoring_core inp g2 hh
  set g3 := phaseScoring inp g2 with hg3
  obtain ⟨d1, d2, d3, d4, d5, d6, d7, d8, d9, d10, d11⟩ := phaseDive_core inp g3
  set g4 := phaseDive inp g3 with hg4
  have h4d : g4.intro_done = true := by rw [d9, s9]; exact i9 (by rw [u9]; exact hd)
  have h4l : g4.lives = g.lives := by rw [d1, s1, i1, u1]
  have h4v : g4.level = g.level := by rw [d2, s2, i2, u2]
  have h4w : g4.wave_size = g.wave_size := by rw [d5, s5, i5, u5]
  have h4m : g4.speed_multiplier = g.speed_multiplier := by rw [d6, s6, i6, u6]
  have h4g : g4.game_over = g.game_over := by rw [d10, s10, i10, u10]
  obtain ⟨c1, c2, c3, c4, c5, c6, c7, c8, c9, c10⟩ :=
    phaseCollision_spec inp g4 h4d hp
  set g5 := phaseCollision inp g4 with hg5
  obtain ⟨a1, a2, a3, a4, a5, a6, a7, a8, a9, a10, a11⟩ :=
    phaseRespawnA_count g5 c5 (by rw [c6]; norm_num)
  set g6 := phaseRespawnA g5 with hg6
  have hclear : phaseLevelClear g6 = g6 := phaseLevelClear_skip_respawning g6 a8
  obtain ⟨b1, b2, b3, b4, b5, b6, b7, b8, b9, b10, b11⟩ :=
    phaseRespawnB_count g6 a8 (by rw [a9, c6]; norm_num)
  have htick : tick inp g = phaseRespawnB g6 := by
    show phaseRespawnB (phaseLevelClear g6) = _
    rw [hclear]
  refine ⟨?_, ?_, ?_, ?_, ?_, ?_⟩
  · rw [htick, b1, a1, c1, h4l]
  · rw [htick, b2, a2, c2, h4v]
  · rw [htick, b7, a7, c4, h4w, h4m]
  · rw [htick, b8]
  · rw [htick, b9, a9, c6]
    norm_num
  · rw [htick, b11, a11, c9, h4l, h4g]

/-- The tick's score is fixed by the scoring phase: no later phase writes
it. -/
lemma tick_score (inp : TickIn) (g : GState) :
    (tick inp g).score = (phaseScoring inp (phaseIntro (phaseUpdates g))).score := by
  show (phaseRespawnB _).score = _
  rw [phaseRespawnB_score, phaseLevelClear_score, phaseRespawnA_score,
    phaseCollision_score, (phaseDive_core inp _).2.2.1]

/-- A formation enemy killed by a bullet scores 50 on the tick's final
score, in any state — the game-over flag in particular does not suppress
it. -/
lemma tick_score_formation (g : GState) (inp : TickIn) (j : ℕ) (e : Agent)
    (hrs : g.is_respawning = false) (hj : g.enemies[j]? = some e)
    (he : e.state = .formation) (hh : inp.hits = [j]) :
    (tick inp g).score = g.score + 50 := by
  have hen : (phaseIntro (phaseUpdates g)).enemies =
      (g.enemies.map enemyUpdate).map enemyUpdate := by
    rw [(phaseIntro_core _).2.2.2.2.2.2.2.2.2.1, phaseUpdates_enemies g hrs]
  have hj2 : ((g.enemies.map enemyUpdate).map enemyUpdate)[j]? =
      some (enemyUpdate (enemyUpdate e)) := by
    rw [List.getElem?_map, List.getElem?_map, hj]
    rfl
  have hstf : (enemyUpdate (enemyUpdate e)).state = .formation :=
    enemyUpdate_formation _ (enemyUpdate_formation e he)
  have hsc : (phaseIntro (phaseUpdates g)).score = g.score := by
    rw [(phaseIntro_core _).2.2.1, (phaseUpdates_core g).2.2.1]
  rw [tick_score, phaseScoring_score, hh]
  simp only [List.filterMap_cons, List.filterMap_nil, hen, hj2]
  show (scoreStep _ (enemyUpdate (enemyUpdate e))).score = g.score + 50
  rw [scoreStep_score, hstf, hsc]

/-- C4 (amended): a player-enemy overlap on a tick costs one life, bumps
the level, and replaces the enemy collection with a freshly spawned
escalated wave within the same tick (the collection is emptied and then
immediately refilled, so it is not left empty); the respawn flag is set
with the countdown at 180 mid-tick, already decremented to 178 by the two
countdown blocks of the same tick.  From 3 lives the player drops to 2;
from 1 life the game-over flag is set; but gameplay updates are not
suppressed while the game-over flag is set (the guard in the code is its
method's final statement): a formation-enemy kill still scores 50. -/
theorem C4_thm (g : GState) (inp : TickIn) (hd : g.intro_done = true)
    (hp : inp.player_hit = true) (hh : inp.hits = []) :
    ((tick inp g).lives = g.lives - 1 ∧
     (tick inp g).level = g.level + 1 ∧
     (tick inp g).enemies =
       spawn_wave (min (g.wave_size + 15) 80) g.speed_multiplier ∧
     (tick inp g).is_respawning = true ∧
     (tick inp g).respawn_timer = 178) ∧
    (g.lives = 3 → g.game_over = false →
      (tick inp g).lives = 2 ∧ (tick inp g).game_over = false) ∧
    (g.lives = 1 → (tick inp g).game_over = true) ∧
    (∀ (g2 : GState) (inp2 : TickIn) (j : ℕ) (e : Agent),
      g2.game_over = true → g2.is_respawning = false →
      g2.enemies[j]? = some e → e.state = .formation → inp2.hits = [j] →
      (tick inp2 g2).score = g2.score + 50) := by
  obtain ⟨t1, t2, t3, t4, t5, t6⟩ := tick_collision g inp hd hp hh
  refine ⟨⟨t1, t2, t3, t4, t5⟩, ?_, ?_, ?_⟩
  · intro h3 hgo
    refine ⟨by rw [t1, h3]; norm_num, ?_⟩
    rw [t6, h3, hgo]
    norm_num
  · intro h1
    rw [t6, h1]
    norm_num
  · intro g2 inp2 j e _ hrs hj he hh2
    exact tick_score_formation g2 inp2 j e hrs hj he hh2

/-- Tick input reporting a player-enemy overlap and nothing else. -/
noncomputable def inpHit : TickIn := { inpNone with player_hit := true }

/-- The concrete 3-lives state with one formation enemy. -/
noncomputable def gC4 : GState := { gBase with enemies := [agForm] }

/-- C4 witness: from the concrete 3-lives state, the collision tick ends
with 2 lives, the timer at 178, game over still off, and — in a concrete
game-over state — a formation kill still scores 50. -/
theorem C4_witness :
    ((tick inpHit gC4).lives = 2 ∧ (tick inpHit gC4).game_over = false) ∧
    (tick inpHit gC4).respawn_timer = 178 ∧
    (tick { inpNone with hits := [0] }
        { gBase with game_over := true, enemies := [agForm] }).score =
      ({ gBase with game_over := true, enemies := [agForm] } : GState).score + 50 :=
  ⟨(C4_thm gC4 inpHit rfl rfl rfl).2.1 rfl rfl,
   (C4_thm gC4 inpHit rfl rfl rfl).1.2.2.2.2,
   (C4_thm gC4 inpHit rfl rfl rfl).2.2.2
     { gBase with game_over := true, enemies := [agForm] }
     { inpNone with hits := [0] } 0 agForm rfl rfl rfl rfl rfl⟩

/-- C4 counterexample: on the concrete collision tick the life is indeed
lost (so this is the claimed scenario), but the enemy collection is not
left empty — the death branch respawns a wave within the same tick. -/
theorem C4_counterexample :
    (tick inpHit gC4).lives = 2 ∧ (tick inpHit gC4).enemies ≠ [] := by
  obtain ⟨t1, -, t3, -, -, -⟩ := tick_collision gC4 inpHit rfl rfl rfl
  refine ⟨by rw [t1]; rfl, ?_⟩
  intro hnil
  rw [t3] at hnil
  have hlen := spawn_wave_length (min (gC4.wave_size + 15) 80) gC4.speed_multiplier
  rw [hnil] at hlen
  revert hlen
  show ¬ (0 = _)
  decide

/-! ### Level clear and the countdown-expiry wave -/

/-- What one tick does on a level clear (intro done, not respawning,
enemy collection empty, no collisions): level up, rescale wave size and
speed multiplier, start the countdown (set to 120, decremented once by
the second countdown block of the same tick). -/
lemma tick_clear (g : GState) (inp : TickIn) (hd : g.intro_done = true)
    (hrs : g.is_respawning = false) (he : g.enemies = [])
    (hh : inp.hits = []) (hp : inp.player_hit = false) :
    (tick inp g).level = g.level + 1 ∧
    (tick inp g).wave_size = min (40 + (g.level + 1) * 5) 80 ∧
    (tick inp g).speed_multiplier = 1 + (((g.level : ℝ) + 1) - 1) * 0.15 ∧
    (tick inp g).is_respawning = true ∧
    (tick inp g).respawn_timer = 119 := by
  obtain ⟨u1, u2, u3, u4, u5, u6, u7, u8, u9, u10⟩ := phaseUpdates_core g
  have hue : (phaseUpdates g).enemies = [] := by
    rw [phaseUpdates_enemies g hrs, he]
    rfl
  obtain ⟨i1, i2, i3, i4, i5, i6, i7, i8, i10, i11, i9⟩ :=
    phaseIntro_core (phaseUpdates g)
  set g2 := phaseIntro (phaseUpdates g) with hg2
  obtain ⟨s1, s2, s3, s4, s5, s6, s7, s8, s9, s10, s11⟩ :=
    phaseScoring_core inp g2 hh
  set g3 := phaseScoring inp g2 with hg3
  obtain ⟨d1, d2, d3, d4, d5, d6, d7, d8, d9, d10, d11⟩ := phaseDive_core inp g3
  set g4 := phaseDive inp g3 with hg4
  have h4d : g4.intro_done = true := by rw [d9, s9]; exact i9 (by rw [u9]; exact hd)
  have h4r : g4.is_respawning = false := by rw [d7, s7, i7, u7]; exact hrs
  have h4e : g4.enemies = [] := d11 (by rw [s11, i11, hue])
  have h4v : g4.level = g.level := by rw [d2, s2, i2, u2]
  have hskip : phaseCollision inp g4 = g4 := phaseCollision_skip inp g4 hp
  have hskipA : phaseRespawnA g4 = g4 := phaseRespawnA_skip g4 h4r
  obtain ⟨f1, f2, f3, f4, f5, f6, f7, f8, f9, f10⟩ :=
    phaseLevelClear_fire g4 h4d h4r (by rw [h4e]; rfl)
  set g7 := phaseLevelClear g4 with hg7
  obtain ⟨b1, b2, b3, b4, b5, b6, b7, b8, b9, b10, b11⟩ :=
    phaseRespawnB_count g7 f7 (by rw [f8]; norm_num)
  have htick : tick inp g = phaseRespawnB g7 := by
    show phaseRespawnB (phaseLevelClear (phaseRespawnA (phaseCollision inp g4))) = _
    rw [hskip, hskipA]
  refine ⟨?_, ?_, ?_, ?_, ?_⟩
  · rw [htick, b2, f2, h4v]
  · rw [htick, b5, f5, h4v]
  · rw [htick, b6, f6, h4v]
  · rw [htick, b8]
  · rw [htick, b9, f8]
    norm_num

/-- What one tick does when the respawn countdown expires (timer at 1,
no enemies yet): the wave is spawned by `spawn_wave()` with the default
multiplier 1, not with the stored speed multiplier. -/
lemma tick_expiry (g : GState) (inp : TickIn)
    (hr : g.is_respawning = true) (ht : g.respawn_timer = 1)
    (he : g.enemies = []) (hh : inp.hits = []) (hp : inp.player_hit = false)
    (hw : g.wave_size ≠ 0) :
    (tick inp g).enemies = spawn_wave g.wave_size 1 ∧
    (tick inp g).is_respawning = false ∧
    (tick inp g).level = g.level ∧
    (tick inp g).speed_multiplier = g.speed_multiplier := by
  have hup : phaseUpdates g = g := phaseUpdates_respawning g hr
  have htick : tick inp g = phaseRespawnB (phaseLevelClear (phaseRespawnA
      (phaseCollision inp (phaseDive inp (phaseScoring inp (phaseIntro g)))))) := by
    unfold tick
    rw [hup]
  obtain ⟨i1, i2, i3, i4, i5, i6, i7, i8, i10, i11, i9⟩ := phaseIntro_core g
  set g2 := phaseIntro g with hg2
  obtain ⟨s1, s2, s3, s4, s5, s6, s7, s8, s9, s10, s11⟩ :=
    phaseScoring_core inp g2 hh
  set g3 := phaseScoring inp g2 with hg3
  obtain ⟨d1, d2, d3, d4, d5, d6, d7, d8, d9, d10, d11⟩ := phaseDive_core inp g3
  set g4 := phaseDive inp g3 with hg4
  have h4r : g4.is_respawning = true := by rw [d7, s7, i7]; exact hr
  have h4t : g4.respawn_timer = 1 := by rw [d8, s8, i8]; exact ht
  have h4e : g4.enemies = [] := d11 (by rw [s11, i11]; exact he)
  have h4w : g4.wave_size = g.wave_size := by rw [d5, s5, i5]
  have h4v : g4.level = g.level := by rw [d2, s2, i2]
  have h4m : g4.speed_multiplier = g.speed_multiplier := by rw [d6, s6, i6]
  rw [phaseCollision_skip inp g4 hp] at htick
  obtain ⟨a1, a2, a3, a4, a5, a6, a7, a8, a9, a10, a11⟩ :=
    phaseRespawnA_fire g4 h4r (by rw [h4t]; norm_num)
  set g6 := phaseRespawnA g4 with hg6
  have h6e : g6.enemies = spawn_wave g.wave_size 1 := by
    rw [a7, h4e, h4w]
    rfl
  have h6len : g6.enemies.length ≠ 0 := by
    rw [h6e, spawn_wave_length]
    have h1 : 1 ≤ (g.wave_size + 3) / 4 := by omega
    have h2 : 1 ≤ min 5 ((g.wave_size + 3) / 4) := by omega
    omega
  rw [phaseLevelClear_skip_enemies g6 h6len, phaseRespawnB_skip g6 a8] at htick
  exact ⟨by rw [htick, h6e], by rw [htick, a8], by rw [htick, a2, h4v],
    by rw [htick, a6, h4m]⟩

/-- C8 (amended): on a level clear the level advances and the wave size
and speed multiplier are rescaled from the new level, and a countdown is
started (120, decremented once within the tick); but the wave actually
spawned when the countdown expires is created by `spawn_wave()` with the
default multiplier, so each of its agents has speed `4 * 1`, not
`4 * speed_multiplier` — the stored multiplier is only applied to the
wave spawned directly in the player-death branch. -/
theorem C8_thm (g : GState) (inp : TickIn) (hd : g.intro_done = true)
    (hh : inp.hits = []) (hp : inp.player_hit = false) :
    (g.is_respawning = false → g.enemies = [] →
      (tick inp g).level = g.level + 1 ∧
      (tick inp g).wave_size = min (40 + (g.level + 1) * 5) 80 ∧
      (tick inp g).speed_multiplier = 1 + (((g.level : ℝ) + 1) - 1) * 0.15 ∧
      (tick inp g).is_respawning = true ∧
      (tick inp g).respawn_timer = 119) ∧
    (g.is_respawning = true → g.respawn_timer = 1 → g.enemies = [] →
      g.wave_size ≠ 0 →
      (tick inp g).enemies = spawn_wave g.wave_size 1 ∧
      ∀ a ∈ (tick inp g).enemies, a.speed = 4 * 1) := by
  constructor
  · intro hrs he
    exact tick_clear g inp hd hrs he hh hp
  · intro hr ht he hw
    obtain ⟨e1, e2, e3, e4⟩ := tick_expiry g inp hr ht he hh hp hw
    refine ⟨e1, ?_⟩
    rw [e1]
    exact spawn_wave_speed g.wave_size 1

/-- The concrete level-2 state whose respawn countdown is about to
expire, with the level-derived multiplier 1.15 stored. -/
noncomputable def gC8 : GState :=
  { gBase with is_respawning := true, respawn_timer := 1, level := 2,
               speed_multiplier := 1 + ((2 : ℝ) - 1) * 0.15, wave_size := 50 }

/-- C8 witness: the level-clear tick from the concrete cleared state, and
the expiry tick from the concrete countdown state. -/
theorem C8_witness :
    ((tick inpNone gBase).level = gBase.level + 1 ∧
     (tick inpNone gBase).wave_size = min (40 + (gBase.level + 1) * 5) 80 ∧
     (tick inpNone gBase).speed_multiplier =
       1 + (((gBase.level : ℝ) + 1) - 1) * 0.15 ∧
     (tick inpNone gBase).is_respawning = true ∧
     (tick inpNone gBase).respawn_timer = 119) ∧
    ((tick inpNone gC8).enemies = spawn_wave gC8.wave_size 1 ∧
     ∀ a ∈ (tick inpNone gC8).enemies, a.speed = 4 * 1) :=
  ⟨(C8_thm gBase inpNone rfl rfl rfl).1 rfl rfl,
   (C8_thm gC8 inpNone rfl rfl rfl).2 rfl rfl rfl (by norm_num [gC8, gBase])⟩

/-- C8 counterexample: the wave spawned when the countdown expires at the
concrete level-2 state has agents of speed `4 * 1 = 4`, while the claim
demands `4 * speed_multiplier = 4 * 1.15`. -/
theorem C8_counterexample :
    (tick inpNone gC8).enemies.head?.map Agent.speed = some ((4 : ℝ) * 1) ∧
    (4 : ℝ) * 1 ≠ 4 * gC8.speed_multiplier := by
  constructor
  · have h := (tick_expiry gC8 inpNone rfl rfl rfl rfl rfl
      (by norm_num [gC8, gBase])).1
    rw [h]
    rfl
  · show (4 : ℝ) * 1 ≠ 4 * (1 + ((2 : ℝ) - 1) * 0.15)
    norm_num

/-! ### Concrete instantiations of the remaining claim theorems -/

/-- C1 witness: the general count formula at `wave_size = 3`, the 20-agent
count at `wave_size = 40`, and the span bounds at the concrete slot
`(250, 100)`. -/
theorem C1_witness :
    (spawn_wave 3 1).length = min 3 (4 * min 5 ((3 + 3) / 4)) ∧
    (spawn_wave 40 1).length = 20 ∧
    (250 ≤ (((250 : ℤ), (100 : ℤ)) : ℤ × ℤ).1 ∧
      (((250 : ℤ), (100 : ℤ)) : ℤ × ℤ).1 ≤ 850) :=
  ⟨C1_thm.1 3 1, C1_thm.2.1,
   C1_thm.2.2.2.1 ((250 : ℤ), (100 : ℤ))
     (by rw [C1_thm.2.2.1]; exact List.mem_cons_self _ _)⟩

/-- C2 witness: the shape facts at the concrete spawn input. -/
theorem C2_witness :
    (create_arc_path 250 (-70) false (850, 200)).length = 100 ∧
    create_arc_path 250 (-70) false (850, 200) ≠ [] :=
  ⟨(C2_thm 250 (-70) false (850, 200)).1, (C2_thm 250 (-70) false (850, 200)).2.1⟩

/-- C7 witness: the dive path from a concrete trigger, and the dive path
of the concrete formation agent being preserved by one update. -/
theorem C7_witness :
    create_dive_path (100, 300) (550, 1235) (250, 100) =
      [(325, 967), (550, 1235), (325, 967), (250, 100)] ∧
    (enemyUpdate agForm).dive_path = agForm.dive_path :=
  ⟨(C7_thm.1 (100, 300) (550, 1235) (250, 100)).trans (by decide),
   C7_thm.2 agForm⟩

end Galaga
